import Mathlib

/-!
Shallow embedding of the Talos v1alpha1 machined Controller
(`internal/app/machined/pkg/runtime/v1alpha1/v1alpha1_controller.go`).

The Controller executes named operational sequences as an ordered list of
phases; within a phase, tasks run concurrently in an errgroup whose `Wait`
surfaces only the first error observed in completion order.  The embedding
makes scheduling explicit: each phase receives a completion order (a list of
0-based task indices), and the whole run receives a schedule assigning a
completion order to each phase index.  Task side effects are observed through
numeric markers emitted when a task unit runs to completion.
-/

set_option linter.unusedVariables false

namespace Talos

/-- Modelled from the spec: the platform operating mode read from the machine
state (`runtime.Mode` lives in the runtime package, outside the embedded
file).  `container` is the restricted mode that makes `ListenForEvents`
return immediately. -/
inductive Mode where
  | container
  | metal
  | cloud
  deriving DecidableEq

/-- Modelled from the spec: the Runtime context bundles the persistent machine
state — of which only the platform operating mode is consulted by the code
under study — and an optional parsed configuration.  Its accessors live in the
runtime package, outside the embedded file. -/
structure RuntimeCtx where
  mode : Mode
  hasConfig : Bool
  deriving DecidableEq

/-- Modelled from the spec: `runtime.Sequence` is an integer-typed enumeration
with seven named constants.  `init` stands for the source's `Initialize`
value (that identifier is reserved in Lean); `other n` stands for any integer
value outside the named constants — such a value falls through the dispatch
switch in `Controller.phases`. -/
inductive Sequence where
  | boot
  | init
  | install
  | shutdown
  | reboot
  | upgrade
  | reset
  | other (n : Nat)
  deriving DecidableEq

/-- Modelled from the spec: every sequence carries a human-readable name
(`Sequence.String()` in the runtime package), used in log lines and in the
phase-failure error text. -/
def Sequence.name : Sequence → String
  | .boot => "boot"
  | .init => "initialize"
  | .install => "install"
  | .shutdown => "shutdown"
  | .reboot => "reboot"
  | .upgrade => "upgrade"
  | .reset => "reset"
  | .other _ => "unknown"

/-- The dynamic type of the untyped `data` argument of `Run`, as inspected by
the type assertions in `Controller.phases`: `nothing` is a nil value,
`upgradeRequest` a `*machine.UpgradeRequest`, `resetRequest` a
`*machine.ResetRequest`, and `otherData` any other dynamic type.  The payload
contents are opaque to the Controller. -/
inductive SequenceData where
  | nothing
  | upgradeRequest
  | resetRequest
  | otherData (tag : Nat)
  deriving DecidableEq

/-- Errors produced by the Controller.  The three sentinel kinds
(`ErrUndefinedRuntime`, `ErrLocked`, `ErrInvalidSequenceData`) are modelled
from the spec (they are declared in the runtime package, outside the embedded
file); `msg` is an arbitrary task-produced error; `wrap` is the result of
`fmt.Errorf` with a `%w` verb: the text placed before the wrapped error. -/
inductive Err where
  | undefinedRuntime
  | locked
  | invalidSequenceData
  | msg (s : String)
  | wrap (m : String) (e : Err)
  deriving DecidableEq

/-- The rendered error message, as Go's `Error()` would produce it. -/
def Err.render : Err → String
  | .undefinedRuntime => "undefined runtime"
  | .locked => "locked"
  | .invalidSequenceData => "invalid sequence data"
  | .msg s => s
  | .wrap m e => m ++ e.render

/-- The wrapping text of `fmt.Errorf("error running phase %d in %s sequence: %w", number, seq.String(), err)`
in `Controller.run`; `number` is the 1-based phase index. -/
def phaseWrapMsg (number : Nat) (seqName : String) : String :=
  "error running phase " ++ toString number ++ " in " ++ seqName ++ " sequence: "

/-- The wrapping text of `fmt.Errorf("task %s: failed, %w", progress, err)` in
`Controller.runPhase`, where `progress` is `"number/total"` with `number` the
1-based task position and `total` the phase's task count. -/
def taskWrapMsg (number total : Nat) : String :=
  "task " ++ toString number ++ "/" ++ toString total ++ ": failed, "

/-- The executable unit a task factory may yield: running it emits its
side-effect `marker` (the observation channel for "this task ran to
completion") and returns `none` on success or `some e` on failure.  In the
source it is a function of (context, logger, runtime); context and logger do
not influence the control flow studied here, the runtime argument is kept. -/
structure TaskExec where
  marker : Nat
  run : Option RuntimeCtx → Option Err

/-- `runtime.TaskSetupFunc`: a task factory, consulted with the sequence and
data; it may yield no executable (a legitimate, silent skip). -/
abbrev TaskSetupFunc := Sequence → SequenceData → Option TaskExec

/-- `runtime.Phase`: an ordered list of task factories. -/
abbrev Phase := List TaskSetupFunc

/-- Modelled from the spec: the Sequencer is a pure planner — given the
runtime context it produces the ordered phase list for each sequence.  Its
methods live in the sequencer file, outside the embedded file; the Controller
only ever calls them as black boxes, passing `c.r`. -/
structure Sequencer where
  boot : Option RuntimeCtx → List Phase
  init : Option RuntimeCtx → List Phase
  install : Option RuntimeCtx → List Phase
  shutdown : Option RuntimeCtx → List Phase
  reboot : Option RuntimeCtx → List Phase
  upgrade : Option RuntimeCtx → List Phase
  reset : Option RuntimeCtx → List Phase

/-- The Controller: runtime context pointer `r` (possibly nil), sequencer `s`,
and the int32 `semaphore` manipulated only by compare-and-swap. -/
structure Controller where
  r : Option RuntimeCtx
  s : Sequencer
  semaphore : Int

/-- `atomic.CompareAndSwapInt32(&v, old, new)`: when the cell holds `old` it
is set to `new` and the swap reports true; otherwise the cell is unchanged
and the swap reports false.  Returns (new cell value, swapped?). -/
def cas (v old new : Int) : Int × Bool :=
  if v = old then (new, true) else (v, false)

/-- `Controller.TryLock`: `!atomic.CompareAndSwapInt32(&c.semaphore, 0, 1)` —
reports true when the lock was already held (the caller failed to acquire
it), false when the caller just acquired it. -/
def Controller.TryLock (c : Controller) : Controller × Bool :=
  let r := cas c.semaphore 0 1
  ({ c with semaphore := r.1 }, !r.2)

/-- `Controller.Unlock`: `atomic.CompareAndSwapInt32(&c.semaphore, 1, 0)`. -/
def Controller.Unlock (c : Controller) : Controller × Bool :=
  let r := cas c.semaphore 1 0
  ({ c with semaphore := r.1 }, r.2)

/-- `Controller.runTask`: builds the executable via the factory; a nil task is
a successful no-op.  Otherwise the executable runs — emitting its marker —
with the shared runtime context, and its error is returned unwrapped.  (The
scoped-logger setup is a collaborator whose failure mode is outside the
studied control flow.)  Returns (markers emitted, error). -/
def Controller.runTask (c : Controller) (n : Nat) (f : TaskSetupFunc)
    (seq : Sequence) (data : SequenceData) : List Nat × Option Err :=
  match f seq data with
  | none => ([], none)
  | some t => ([t.marker], t.run c.r)

/-- One unit of the errgroup in `Controller.runPhase`: the closure passed to
`eg.Go` for the task at 0-based index `i`, which calls `runTask` with the
1-based number and wraps any failure with the task's position and the phase's
task count.  An index outside the phase is never scheduled by a well-formed
completion order and yields a silent no-op. -/
def Controller.taskUnit (c : Controller) (phase : Phase) (seq : Sequence)
    (data : SequenceData) (i : Nat) : List Nat × Option Err :=
  match phase[i]? with
  | none => ([], none)
  | some f =>
    let r := c.runTask (i + 1) f seq data
    (r.1, r.2.map fun e => Err.wrap (taskWrapMsg (i + 1) phase.length) e)

/-- `Controller.runPhase`: every task unit is launched and every unit runs to
completion (markers are emitted in completion order `order`, one entry of
`order` per unit); `eg.Wait` returns the error of the first-completing
failing unit — the head of the failures in completion order — discarding the
rest. -/
def Controller.runPhase (c : Controller) (phase : Phase) (seq : Sequence)
    (data : SequenceData) (order : List Nat) : List Nat × Option Err :=
  (order.flatMap fun i => (c.taskUnit phase seq data i).1,
   (order.filterMap fun i => (c.taskUnit phase seq data i).2).head?)

/-- The loop body of `Controller.run`, recursing over the remaining phases;
`idx` is the 0-based index of the first remaining phase in the full plan, and
`sched idx` is that phase's completion order.  On the first phase failure the
loop stops and wraps the phase error with the 1-based phase number and the
sequence name; markers of later phases are never emitted. -/
def Controller.runFrom (c : Controller) (seq : Sequence) (data : SequenceData)
    (sched : Nat → List Nat) : List Phase → Nat → List Nat × Option Err
  | [], _ => ([], none)
  | phase :: rest, idx =>
    let r := c.runPhase phase seq data (sched idx)
    match r.2 with
    | some e => (r.1, some (Err.wrap (phaseWrapMsg (idx + 1) seq.name) e))
    | none =>
      let r2 := c.runFrom seq data sched rest (idx + 1)
      (r.1 ++ r2.1, r2.2)

/-- `Controller.run`: executes the planned phases serially, starting at phase
index 0. -/
def Controller.run (c : Controller) (seq : Sequence) (phases : List Phase)
    (data : SequenceData) (sched : Nat → List Nat) : List Nat × Option Err :=
  c.runFrom seq data sched phases 0

/-- `Controller.phases`: the dispatch switch.  Boot, Initialize, Install,
Shutdown and Reboot ignore `data`; Upgrade and Reset type-assert their
payload and fail with `ErrInvalidSequenceData` on mismatch; any other
sequence value falls through the switch and yields the nil phase slice with
no error. -/
def Controller.phases (c : Controller) (seq : Sequence) (data : SequenceData) :
    Except Err (List Phase) :=
  match seq with
  | .boot => .ok (c.s.boot c.r)
  | .init => .ok (c.s.init c.r)
  | .install => .ok (c.s.install c.r)
  | .shutdown => .ok (c.s.shutdown c.r)
  | .reboot => .ok (c.s.reboot c.r)
  | .upgrade =>
    match data with
    | .upgradeRequest => .ok (c.s.upgrade c.r)
    | _ => .error .invalidSequenceData
  | .reset =>
    match data with
    | .resetRequest => .ok (c.s.reset c.r)
    | _ => .error .invalidSequenceData
  | .other _ => .ok []

/-- The observable outcome of one `Run` call: the Controller state at return
(the semaphore is the only mutable field), the markers of every task that ran,
and the returned error. -/
structure RunResult where
  ctlr : Controller
  markers : List Nat
  err : Option Err

/-- `Controller.Run`: fail with `ErrUndefinedRuntime` when no runtime context
is attached (the lock is not touched); fail with `ErrLocked` when the
non-blocking try-acquire finds the lock held (the failed compare-and-swap
leaves the semaphore unchanged); otherwise `defer c.Unlock()` covers every
further exit path — a planning error is propagated unchanged, else the phases
run. -/
def Controller.Run (c : Controller) (seq : Sequence) (data : SequenceData)
    (sched : Nat → List Nat) : RunResult :=
  match c.r with
  | none => ⟨c, [], some .undefinedRuntime⟩
  | some _ =>
    let t := c.TryLock
    if t.2 then ⟨t.1, [], some .locked⟩
    else
      match t.1.phases seq data with
      | .error e => ⟨(t.1.Unlock).1, [], some e⟩
      | .ok ps =>
        let r := t.1.run seq ps data sched
        ⟨(t.1.Unlock).1, r.1, r.2⟩

/-- The first event to arrive at the listener's channel: a SIGTERM
termination signal, an error from the ACPI power-event source, or a power
event (the ACPI listener returning nil). -/
inductive EventOutcome where
  | sigterm
  | acpiError (e : Err)
  | acpiEvent
  deriving DecidableEq

/-- The observable outcome of `ListenForEvents`: its return value, the error
of a triggered shutdown `Run` that was logged and discarded (if such a run
happened), and whether a shutdown run was triggered at all. -/
structure ListenResult where
  ret : Option Err
  loggedRunErr : Option Err
  ranShutdown : Bool

/-- `Controller.ListenForEvents`: in container platform mode it returns nil
immediately (the already-registered SIGTERM handler keeps running
unobserved).  Otherwise the first arriving outcome decides the result: a
SIGTERM triggers `Run(Shutdown, nil)` whose error is logged and discarded and
nil is sent to the channel; an ACPI-source error is sent to the channel as
is; an ACPI power event triggers the same discarded-error shutdown run.  The
nil-runtime case (a nil dereference in Go, never exercised here) is a no-op;
claims about this function carry an attached-runtime hypothesis. -/
def Controller.ListenForEvents (c : Controller) (outcome : EventOutcome)
    (sched : Nat → List Nat) : ListenResult :=
  match c.r with
  | none => ⟨none, none, false⟩
  | some rc =>
    if rc.mode = .container then ⟨none, none, false⟩
    else
      match outcome with
      | .sigterm =>
        let r := c.Run .shutdown .nothing sched
        ⟨none, r.err, true⟩
      | .acpiError e => ⟨some e, none, false⟩
      | .acpiEvent =>
        let r := c.Run .shutdown .nothing sched
        ⟨none, r.err, true⟩

/-! ## Concrete fixtures used by witnesses and the concrete scenario -/

/-- A task factory yielding an always-succeeding executable with marker `m`. -/
def okTask (m : Nat) : TaskSetupFunc := fun _ _ => some ⟨m, fun _ => none⟩

/-- An executable with marker `m` failing with message `s`. -/
def failExec (m : Nat) (s : String) : TaskExec :=
  ⟨m, fun _ => some (Err.msg s)⟩

/-- A task factory yielding `failExec m s`. -/
def failTask (m : Nat) (s : String) : TaskSetupFunc := fun _ _ => some (failExec m s)

/-- A planner entry producing no phases. -/
def noPhases : Option RuntimeCtx → List Phase := fun _ => []

/-- A sequencer planning no phases for any sequence. -/
def emptySequencer : Sequencer :=
  ⟨noPhases, noPhases, noPhases, noPhases, noPhases, noPhases, noPhases⟩

/-- A runtime context on a non-container platform. -/
def rcMetal : RuntimeCtx := ⟨.metal, false⟩

/-- The sequencer of the concrete scenario: Shutdown plans two phases, the
first with two succeeding tasks (markers 1 and 2), the second with a single
task failing with "disk busy" (marker 3). -/
def seq8 : Sequencer :=
  { emptySequencer with shutdown := fun _ => [[okTask 1, okTask 2], [failTask 3 "disk busy"]] }

/-- The Controller of the concrete scenario: runtime attached, lock free. -/
def c8 : Controller := ⟨some rcMetal, seq8, 0⟩

/-- A schedule for the concrete scenario: phase 1 completes its tasks in
position order, phase 2 completes its single task. -/
def sched8 : Nat → List Nat := fun k => if k = 0 then [0, 1] else [0]

/-- A Controller with no runtime context attached. -/
def cNoRuntime : Controller := ⟨none, emptySequencer, 0⟩

/-- A Controller whose single-flight lock is currently held. -/
def cHeld : Controller := ⟨some rcMetal, emptySequencer, 1⟩

/-- A schedule planning the empty completion order for every phase. -/
def schedNil : Nat → List Nat := fun _ => []

/-- The two-phase plan of the concrete scenario (also what `seq8` plans for
Shutdown). -/
def plan8 : List Phase := [[okTask 1, okTask 2], [failTask 3 "disk busy"]]

/-- A three-task phase in which the units at indices 1 and 2 both fail; used
to exhibit first-error-wins aggregation. -/
def phaseTwoFailures : Phase := [okTask 1, failTask 2 "boom", failTask 3 "bust"]

/-! ## Helper lemmas about the phase loop -/

/-- When every planned phase succeeds under the schedule, the loop started at
index `idx` emits every phase's markers in phase order and returns no
error. -/
theorem Controller.runFrom_all_ok (c : Controller) (seq : Sequence)
    (data : SequenceData) (sched : Nat → List Nat) :
    ∀ (ps : List Phase) (idx : Nat),
      (∀ j, j < ps.length →
        (c.runPhase (ps.getD j []) seq data (sched (idx + j))).2 = none) →
      c.runFrom seq data sched ps idx =
        ((List.range ps.length).flatMap
          (fun j => (c.runPhase (ps.getD j []) seq data (sched (idx + j))).1),
         none) := by
  intro ps
  induction ps with
  | nil => intro idx _; rfl
  | cons p rest ih =>
    intro idx hok
    have h0 : (c.runPhase p seq data (sched idx)).2 = none := by
      simpa using hok 0 (Nat.succ_pos rest.length)
    have ih' := ih (idx + 1)
      (fun j hj => by
        have h := hok (j + 1) (Nat.succ_lt_succ hj)
        simpa [show idx + 1 + j = idx + (j + 1) from by omega] using h)
    simp only [Controller.runFrom, h0, ih']
    have harg : ∀ a : Nat, idx + 1 + a = idx + (a + 1) := fun a => by omega
    simp only [List.length_cons, List.range_succ_eq_map, List.flatMap_cons,
      List.flatMap_map, List.getD_cons_zero, List.getD_cons_succ, Nat.add_zero,
      Nat.succ_eq_add_one, harg]

/-- When the phases before index `k` succeed and the phase at `k` fails with
`e`, the loop started at index `idx` emits exactly the markers of phases
`0..k` in phase order and stops with `e` wrapped with the 1-based phase
number and the sequence name; no later phase contributes anything. -/
theorem Controller.runFrom_first_failure (c : Controller) (seq : Sequence)
    (data : SequenceData) (sched : Nat → List Nat) :
    ∀ (ps : List Phase) (idx k : Nat) (e : Err),
      k < ps.length →
      (∀ j, j < k →
        (c.runPhase (ps.getD j []) seq data (sched (idx + j))).2 = none) →
      (c.runPhase (ps.getD k []) seq data (sched (idx + k))).2 = some e →
      c.runFrom seq data sched ps idx =
        ((List.range (k + 1)).flatMap
          (fun j => (c.runPhase (ps.getD j []) seq data (sched (idx + j))).1),
         some (Err.wrap (phaseWrapMsg (idx + k + 1) seq.name) e)) := by
  intro ps
  induction ps with
  | nil => intro idx k e hk _ _; exact absurd hk (Nat.not_lt_zero k)
  | cons p rest ih =>
    intro idx k e hk hprev hfail
    cases k with
    | zero =>
      simp only [List.getD_cons_zero, Nat.add_zero] at hfail
      simp [Controller.runFrom, hfail, List.range_succ_eq_map]
    | succ k' =>
      have h0 : (c.runPhase p seq data (sched idx)).2 = none := by
        simpa using hprev 0 (Nat.succ_pos k')
      have hk' : k' < rest.length := Nat.lt_of_succ_lt_succ (by simpa using hk)
      have ih' := ih (idx + 1) k' e hk'
        (fun j hj => by
          have h := hprev (j + 1) (Nat.succ_lt_succ hj)
          simpa [show idx + 1 + j = idx + (j + 1) from by omega] using h)
        (by
          have h := hfail
          simpa [show idx + 1 + k' = idx + (k' + 1) from by omega] using h)
      simp only [Controller.runFrom, h0, ih']
      have harg : ∀ a : Nat, idx + 1 + a = idx + (a + 1) := fun a => by omega
      simp only [List.length_cons, List.range_succ_eq_map, List.flatMap_cons,
        List.flatMap_map, List.getD_cons_zero, List.getD_cons_succ, Nat.add_zero,
        Nat.succ_eq_add_one, harg]

/-! ## Claims -/

/-- Claim C1: for every sequence and planned phase list, `Controller.run`
executes the phases strictly in order: when every phase succeeds, the markers
of all phases appear in plan order and no error is returned; when the phases
before index `k` succeed and the phase at `k` fails with `e`, exactly the
markers of phases `0..k` are emitted — no later phase is ever started — and
the run stops immediately with an error wrapping `e` that identifies the
failing phase's 1-based index `k + 1` and the sequence's name. -/
theorem claim_c1_run_phases_in_order_stops_on_failure (c : Controller)
    (seq : Sequence) (data : SequenceData) (sched : Nat → List Nat)
    (phases : List Phase) :
    ((∀ j, j < phases.length →
        (c.runPhase (phases.getD j []) seq data (sched j)).2 = none) →
      c.run seq phases data sched =
        ((List.range phases.length).flatMap
          (fun j => (c.runPhase (phases.getD j []) seq data (sched j)).1),
         none)) ∧
    (∀ k e, k < phases.length →
      (∀ j, j < k →
        (c.runPhase (phases.getD j []) seq data (sched j)).2 = none) →
      (c.runPhase (phases.getD k []) seq data (sched k)).2 = some e →
      c.run seq phases data sched =
        ((List.range (k + 1)).flatMap
          (fun j => (c.runPhase (phases.getD j []) seq data (sched j)).1),
         some (Err.wrap (phaseWrapMsg (k + 1) seq.name) e))) := by
  constructor
  · intro hok
    have h := Controller.runFrom_all_ok c seq data sched phases 0
      (fun j hj => by simpa using hok j hj)
    simpa [Controller.run] using h
  · intro k e hk hprev hfail
    have h := Controller.runFrom_first_failure c seq data sched phases 0 k e hk
      (fun j hj => by simpa using hprev j hj)
      (by simpa using hfail)
    simpa [Controller.run] using h

/-- Witness for C1 on the concrete two-phase plan: phase 1 succeeds (markers
1 and 2), phase 2 fails, the run emits only the markers up to the failing
phase and wraps the failure with phase number 2 and the sequence name. -/
theorem claim_c1_witness :
    1 < plan8.length ∧
    (∀ j, j < 1 →
      (c8.runPhase (plan8.getD j []) .shutdown .nothing (sched8 j)).2 = none) ∧
    (c8.runPhase (plan8.getD 1 []) .shutdown .nothing (sched8 1)).2
      = some (Err.wrap (taskWrapMsg 1 1) (Err.msg "disk busy")) ∧
    c8.run .shutdown plan8 .nothing sched8 =
      ([1, 2, 3], some (Err.wrap (phaseWrapMsg 2 "shutdown")
        (Err.wrap (taskWrapMsg 1 1) (Err.msg "disk busy")))) :=
  ⟨by decide, by decide, rfl,
    (claim_c1_run_phases_in_order_stops_on_failure c8 .shutdown .nothing
        sched8 plan8).2
      1 (Err.wrap (taskWrapMsg 1 1) (Err.msg "disk busy"))
      (by decide) (by decide) rfl⟩

/-- Claim C2: `runPhase` joins every launched unit — the emitted markers are
exactly the units' markers in completion order, so every unit's markers are
present whatever failed (first two conjuncts) — and surfaces at most one
error (the result is an `Option`): the error of the first-completing failing
unit, here the unit at position `i` preceded in completion order only by
succeeding units, with every later failure discarded; the surfaced error
wraps the task's own error with its 1-based position `i + 1` and the phase's
total task count. -/
theorem claim_c2_phase_joins_all_first_error_wins (c : Controller)
    (phase : Phase) (seq : Sequence) (data : SequenceData)
    (order pre post : List Nat) (i : Nat) (f : TaskSetupFunc) (t : TaskExec)
    (e0 : Err)
    (horder : order = pre ++ i :: post)
    (hperm : order.Perm (List.range phase.length))
    (hpre : ∀ j ∈ pre, (c.taskUnit phase seq data j).2 = none)
    (hf : phase[i]? = some f) (ht : f seq data = some t)
    (he : t.run c.r = some e0) :
    (c.runPhase phase seq data order).1
      = order.flatMap (fun j => (c.taskUnit phase seq data j).1) ∧
    (∀ j, j < phase.length → ∀ m, m ∈ (c.taskUnit phase seq data j).1 →
      m ∈ (c.runPhase phase seq data order).1) ∧
    (c.runPhase phase seq data order).2
      = some (Err.wrap (taskWrapMsg (i + 1) phase.length) e0) := by
  refine ⟨rfl, ?_, ?_⟩
  · intro j hj m hm
    have hjo : j ∈ order := (hperm.mem_iff).mpr (List.mem_range.mpr hj)
    exact List.mem_flatMap.mpr ⟨j, hjo, hm⟩
  · have hui : (c.taskUnit phase seq data i).2
        = some (Err.wrap (taskWrapMsg (i + 1) phase.length) e0) := by
      simp [Controller.taskUnit, Controller.runTask, hf, ht, he]
    show (order.filterMap fun j => (c.taskUnit phase seq data j).2).head? = _
    rw [horder, List.filterMap_append, List.filterMap_eq_nil_iff.mpr hpre]
    simp [hui]

/-- Witness for C2 on a phase with two failing tasks: the unit at index 2
("bust") completes first, its wrapped error is the surfaced one, the failure
of the unit at index 1 ("boom") is discarded, and all three markers are
present. -/
theorem claim_c2_witness :
    ([2, 0, 1] : List Nat) = [] ++ 2 :: [0, 1] ∧
    ([2, 0, 1] : List Nat).Perm (List.range phaseTwoFailures.length) ∧
    (∀ j ∈ ([] : List Nat),
      (c8.taskUnit phaseTwoFailures .shutdown .nothing j).2 = none) ∧
    phaseTwoFailures[2]? = some (failTask 3 "bust") ∧
    failTask 3 "bust" .shutdown .nothing = some (failExec 3 "bust") ∧
    (failExec 3 "bust").run c8.r = some (Err.msg "bust") ∧
    ((∀ j, j < phaseTwoFailures.length →
        ∀ m, m ∈ (c8.taskUnit phaseTwoFailures .shutdown .nothing j).1 →
          m ∈ (c8.runPhase phaseTwoFailures .shutdown .nothing [2, 0, 1]).1) ∧
      (c8.runPhase phaseTwoFailures .shutdown .nothing [2, 0, 1]).2
        = some (Err.wrap (taskWrapMsg 3 3) (Err.msg "bust"))) :=
  ⟨rfl, by decide, by simp, rfl, rfl, rfl,
    (claim_c2_phase_joins_all_first_error_wins c8 phaseTwoFailures .shutdown
        .nothing [2, 0, 1] [] [0, 1] 2 (failTask 3 "bust") (failExec 3 "bust")
        (Err.msg "bust") rfl (by decide) (by simp) rfl rfl rfl).2.1,
    (claim_c2_phase_joins_all_first_error_wins c8 phaseTwoFailures .shutdown
        .nothing [2, 0, 1] [] [0, 1] 2 (failTask 3 "bust") (failExec 3 "bust")
        (Err.msg "bust") rfl (by decide) (by simp) rfl rfl rfl).2.2⟩

/-- Claim C8: the concrete Shutdown scenario.  The sequencer plans two phases
— the first with the two succeeding tasks A (marker 1) and B (marker 2), the
second with the single task C (marker 3) failing with "disk busy".
`Run(Shutdown, nil)` returns the error wrapping "disk busy" that identifies
the failing phase by its 1-based index 2 (of the 2 planned phases) in the
shutdown sequence and the task as 1 of 1; the marker trace [1, 2, 3] shows A
and B both completed before the failing task and hence before the error was
returned, and the rendered message is stated verbatim. -/
theorem claim_c8_concrete_shutdown_scenario :
    (c8.s.shutdown c8.r).length = 2 ∧
    c8.Run .shutdown .nothing sched8 =
      ⟨c8, [1, 2, 3],
        some (Err.wrap (phaseWrapMsg 2 "shutdown")
          (Err.wrap (taskWrapMsg 1 1) (Err.msg "disk busy")))⟩ ∧
    ((c8.Run .shutdown .nothing sched8).err.map Err.render)
      = some "error running phase 2 in shutdown sequence: task 1/1: failed, disk busy" :=
  ⟨rfl, rfl, rfl⟩

/-- Claim C5: calling `Run` on a Controller whose Runtime context is absent
returns the `UndefinedRuntime` error immediately, for every sequence value
and data; the returned Controller state is the unchanged input state, so the
lock was never attempted, and no marker was emitted (no task executed). -/
theorem claim_c5_undefined_runtime (c : Controller) (seq : Sequence)
    (data : SequenceData) (sched : Nat → List Nat) (hr : c.r = none) :
    c.Run seq data sched = ⟨c, [], some Err.undefinedRuntime⟩ := by
  unfold Controller.Run
  rw [hr]

/-- Witness for C5 at a concrete Controller and sequence. -/
theorem claim_c5_witness :
    cNoRuntime.r = none ∧
    cNoRuntime.Run .upgrade .nothing schedNil = ⟨cNoRuntime, [], some Err.undefinedRuntime⟩ :=
  ⟨rfl, claim_c5_undefined_runtime cNoRuntime .upgrade .nothing schedNil rfl⟩

/-- Claim C3: when the single-flight lock is already held, `Run` returns the
`Locked` error immediately with the Controller state unchanged (the failed
compare-and-swap does not touch the semaphore), no markers (no planning
result is consulted, no phase or task runs); and of two overlapping `Run`
calls — the second observing the in-flight state left by the first's
successful try-acquire — exactly one proceeds: from a free lock the first
caller's `TryLock` acquires, and a `Run` against the resulting in-flight
state fails with `Locked`. -/
theorem claim_c3_locked_is_immediate (c : Controller) (rc : RuntimeCtx)
    (seq : Sequence) (data : SequenceData) (sched : Nat → List Nat)
    (hr : c.r = some rc) :
    (c.semaphore ≠ 0 → c.Run seq data sched = ⟨c, [], some Err.locked⟩) ∧
    (c.semaphore = 0 →
      (c.TryLock).2 = false ∧
      (c.TryLock).1.Run seq data sched = ⟨(c.TryLock).1, [], some Err.locked⟩) := by
  obtain ⟨r, s, sem⟩ := c
  simp only at hr
  subst hr
  constructor
  · intro h
    simp only at h
    simp [Controller.Run, Controller.TryLock, cas, h]
  · intro h
    simp only at h
    subst h
    simp [Controller.Run, Controller.TryLock, cas]

/-- Witness for C3 at a concrete held-lock Controller. -/
theorem claim_c3_witness :
    cHeld.r = some rcMetal ∧ cHeld.semaphore ≠ 0 ∧
    cHeld.Run .shutdown .nothing schedNil = ⟨cHeld, [], some Err.locked⟩ :=
  ⟨rfl, by decide,
    (claim_c3_locked_is_immediate cHeld rcMetal .shutdown .nothing schedNil rfl).1 (by decide)⟩

/-- Claim C4: every `Run` call that acquires the lock releases it on every
exit path — after a `Run` on a free-lock Controller returns, the semaphore is
0 again and a subsequent `TryLock` acquires (reports false). -/
theorem claim_c4_lock_released (c : Controller) (rc : RuntimeCtx)
    (seq : Sequence) (data : SequenceData) (sched : Nat → List Nat)
    (hr : c.r = some rc) (hfree : c.semaphore = 0) :
    (c.Run seq data sched).ctlr.semaphore = 0 ∧
    ((c.Run seq data sched).ctlr.TryLock).2 = false := by
  obtain ⟨r, s, sem⟩ := c
  simp only at hr hfree
  subst hr; subst hfree
  cases hp : Controller.phases ⟨some rc, s, 1⟩ seq data <;>
    simp [Controller.Run, Controller.TryLock, Controller.Unlock, cas, hp]

/-- Witness for C4 at a concrete Controller whose planned phase even fails
(the error exit path still releases the lock). -/
theorem claim_c4_witness :
    c8.r = some rcMetal ∧ c8.semaphore = 0 ∧
    (c8.Run .shutdown .nothing sched8).ctlr.semaphore = 0 ∧
    ((c8.Run .shutdown .nothing sched8).ctlr.TryLock).2 = false :=
  ⟨rfl, rfl,
    (claim_c4_lock_released c8 rcMetal .shutdown .nothing sched8 rfl rfl).1,
    (claim_c4_lock_released c8 rcMetal .shutdown .nothing sched8 rfl rfl).2⟩

/-- Claim C6: for the Upgrade sequence with data not carrying an
UpgradePayload, planning fails with `InvalidSequenceData` (no phases), and
`Run` returns that error with no marker emitted (no task executed) and the
Controller state restored; symmetrically for Reset with ResetPayload. -/
theorem claim_c6_invalid_sequence_data (c : Controller) (rc : RuntimeCtx)
    (sched : Nat → List Nat) (hr : c.r = some rc) (hfree : c.semaphore = 0) :
    (∀ data, data ≠ SequenceData.upgradeRequest →
      c.phases .upgrade data = .error Err.invalidSequenceData ∧
      c.Run .upgrade data sched = ⟨c, [], some Err.invalidSequenceData⟩) ∧
    (∀ data, data ≠ SequenceData.resetRequest →
      c.phases .reset data = .error Err.invalidSequenceData ∧
      c.Run .reset data sched = ⟨c, [], some Err.invalidSequenceData⟩) := by
  obtain ⟨r, s, sem⟩ := c
  simp only at hr hfree
  subst hr; subst hfree
  constructor <;> intro data hd <;> cases data <;>
    simp_all [Controller.Run, Controller.phases, Controller.TryLock,
      Controller.Unlock, cas]

/-- Witness for C6 at a concrete Controller, with nil data for Upgrade and a
mismatched payload for Reset. -/
theorem claim_c6_witness :
    c8.r = some rcMetal ∧ c8.semaphore = 0 ∧
    SequenceData.nothing ≠ SequenceData.upgradeRequest ∧
    SequenceData.upgradeRequest ≠ SequenceData.resetRequest ∧
    c8.Run .upgrade .nothing schedNil = ⟨c8, [], some Err.invalidSequenceData⟩ ∧
    c8.Run .reset .upgradeRequest schedNil = ⟨c8, [], some Err.invalidSequenceData⟩ :=
  ⟨rfl, rfl, by decide, by decide,
    ((claim_c6_invalid_sequence_data c8 rcMetal schedNil rfl rfl).1
      SequenceData.nothing (by decide)).2,
    ((claim_c6_invalid_sequence_data c8 rcMetal schedNil rfl rfl).2
      SequenceData.upgradeRequest (by decide)).2⟩

/-- Claim C7: `TryLock` reports true exactly when the lock was already held
and false when the caller just acquired it; from a free lock two successive
`TryLock` calls report false then true (the second leaving the state
unchanged); `Unlock` then `TryLock` reports false again; and a redundant
`Unlock` on a free lock reports false and leaves the state unchanged (no
corruption; the embedding is a total function, so no panic exists). -/
theorem claim_c7_trylock_unlock (c : Controller) (hfree : c.semaphore = 0) :
    (∀ c2 : Controller, (c2.TryLock).2 = true ↔ c2.semaphore ≠ 0) ∧
    (c.TryLock).2 = false ∧
    (c.TryLock).1.semaphore = 1 ∧
    ((c.TryLock).1.TryLock).2 = true ∧
    ((c.TryLock).1.TryLock).1 = (c.TryLock).1 ∧
    ((c.TryLock).1.Unlock).1.semaphore = 0 ∧
    (((c.TryLock).1.Unlock).1.TryLock).2 = false ∧
    (c.Unlock).1 = c ∧ (c.Unlock).2 = false := by
  obtain ⟨r, s, sem⟩ := c
  simp only at hfree
  subst hfree
  refine ⟨fun c2 => ?_, ?_⟩
  · by_cases h : c2.semaphore = 0 <;> simp [Controller.TryLock, cas, h]
  · simp [Controller.TryLock, Controller.Unlock, cas]

/-- Witness for C7 at a concrete free-lock Controller. -/
theorem claim_c7_witness :
    c8.semaphore = 0 ∧
    (c8.TryLock).2 = false ∧ ((c8.TryLock).1.TryLock).2 = true ∧
    (((c8.TryLock).1.Unlock).1.TryLock).2 = false ∧ (c8.Unlock).2 = false :=
  ⟨rfl,
    (claim_c7_trylock_unlock c8 rfl).2.1,
    (claim_c7_trylock_unlock c8 rfl).2.2.2.1,
    (claim_c7_trylock_unlock c8 rfl).2.2.2.2.2.2.1,
    (claim_c7_trylock_unlock c8 rfl).2.2.2.2.2.2.2.2⟩

/-- Claim C9: `ListenForEvents` never returns the error of a shutdown `Run` it
triggers — a SIGTERM or a successful power event triggers the run, whose
error is recorded only in the log and the listener yields nil for that
outcome; only an error of the power-event source itself becomes the return
value, and any non-nil return value can only come from that source. -/
theorem claim_c9_listener_swallows_shutdown_errors (c : Controller)
    (rc : RuntimeCtx) (sched : Nat → List Nat) (hr : c.r = some rc)
    (hmode : rc.mode ≠ Mode.container) :
    (c.ListenForEvents .sigterm sched
      = ⟨none, (c.Run .shutdown .nothing sched).err, true⟩) ∧
    (c.ListenForEvents .acpiEvent sched
      = ⟨none, (c.Run .shutdown .nothing sched).err, true⟩) ∧
    (∀ e, c.ListenForEvents (.acpiError e) sched = ⟨some e, none, false⟩) ∧
    (∀ outcome e, (c.ListenForEvents outcome sched).ret = some e →
      outcome = .acpiError e) := by
  refine ⟨?_, ?_, fun e => ?_, fun outcome e h => ?_⟩ <;>
    [skip; skip; skip; cases outcome] <;>
    simp_all [Controller.ListenForEvents, hr, hmode]

/-- Witness for C9 at a concrete Controller whose triggered shutdown run
fails, yet the listener yields nil for the SIGTERM outcome. -/
theorem claim_c9_witness :
    c8.r = some rcMetal ∧ rcMetal.mode ≠ Mode.container ∧
    c8.ListenForEvents .sigterm sched8
      = ⟨none, (c8.Run .shutdown .nothing sched8).err, true⟩ ∧
    (c8.ListenForEvents (.acpiError (Err.msg "acpi source broke")) sched8
      = ⟨some (Err.msg "acpi source broke"), none, false⟩) :=
  ⟨rfl, by decide,
    (claim_c9_listener_swallows_shutdown_errors c8 rcMetal sched8 rfl (by decide)).1,
    (claim_c9_listener_swallows_shutdown_errors c8 rcMetal sched8 rfl
      (by decide)).2.2.1 (Err.msg "acpi source broke")⟩

/-- Claim C10: for every sequence value outside the seven enumerated ones,
planning falls through the dispatch switch yielding the empty phase list and
no error, so `Run` on a Controller with a runtime context and a free lock
returns nil, emits no marker (no task executes) and restores the Controller
state. -/
theorem claim_c10_unknown_sequence_succeeds (c : Controller) (rc : RuntimeCtx)
    (n : Nat) (data : SequenceData) (sched : Nat → List Nat)
    (hr : c.r = some rc) (hfree : c.semaphore = 0) :
    c.phases (.other n) data = .ok [] ∧
    c.Run (.other n) data sched = ⟨c, [], none⟩ := by
  obtain ⟨r, s, sem⟩ := c
  simp only at hr hfree
  subst hr; subst hfree
  exact ⟨rfl, by
    simp [Controller.Run, Controller.phases, Controller.TryLock,
      Controller.Unlock, cas, Controller.run, Controller.runFrom]⟩

/-- Witness for C10 at a concrete Controller and the out-of-range sequence
value 99. -/
theorem claim_c10_witness :
    c8.r = some rcMetal ∧ c8.semaphore = 0 ∧
    c8.phases (.other 99) .nothing = .ok [] ∧
    c8.Run (.other 99) .nothing sched8 = ⟨c8, [], none⟩ :=
  ⟨rfl, rfl,
    (claim_c10_unknown_sequence_succeeds c8 rcMetal 99 .nothing sched8 rfl rfl).1,
    (claim_c10_unknown_sequence_succeeds c8 rcMetal 99 .nothing sched8 rfl rfl).2⟩

end Talos
